import Mathlib

/-!
Shallow embedding of the conversational request/response coordinator of
`vertexai/language_models/_language_models.py`: the request builders
(`_create_text_generation_prediction_request`, `_ChatSessionBase._prepare_request`),
the response parsers (`_parse_text_generation_model_response`,
`_parse_text_generation_model_multi_candidate_response`,
`_ChatSessionBase._parse_chat_prediction_response`), the chat session state and
its commit discipline (`send_message`, `send_message_streaming`), and the
validation logic of `_TunableModelMixin.tune_model`.

Python dictionaries built by conditional insertion are modelled as association
lists built by appending optional singleton segments in source order; Python
`None` is `Option.none`; Python truthiness of numbers, strings and lists is
made explicit; the remote endpoint is an oracle function; Python exceptions
are `Option`/`Except` failures.
-/

/-- Python numeric scalar as seen by the request builders: they distinguish
`int` from `float` (via `isinstance`) and coerce ints to floats for
`temperature` and `topP`. Float payloads are modelled by rationals; the code
performs no arithmetic on them, it only stores and serializes them. -/
inductive PyNum where
  | int : Int → PyNum
  | float : Rat → PyNum
deriving DecidableEq

/-- Python truthiness of a number: zero (int or float) is falsy. -/
def PyNum.truthy : PyNum → Bool
  | .int n => n != 0
  | .float q => q != 0

/-- The coercion `float(x)` applied by the builders when the supplied value is
an `int`; floats pass through unchanged. -/
def PyNum.toFloat : PyNum → PyNum
  | .int n => .float (n : Rat)
  | .float q => .float q

/-- Truthiness of `Optional[int]`: `None` and `0` are falsy. -/
def optIntTruthy : Option Int → Bool
  | none => false
  | some n => n != 0

/-- Truthiness of an optional numeric value. -/
def optNumTruthy : Option PyNum → Bool
  | none => false
  | some v => v.truthy

/-- Truthiness of `Optional[List[str]]`: `None` and the empty list are falsy. -/
def optStrListTruthy : Option (List String) → Bool
  | none => false
  | some l => !l.isEmpty

/-- Truthiness of `Optional[str]`: `None` and the empty string are falsy. -/
def optStrTruthy : Option String → Bool
  | none => false
  | some s => !s.isEmpty

/-- Python `a or b` on optional ints (used by `_prepare_request` to merge
per-call arguments with session defaults): the first operand is returned when
truthy, otherwise the second operand is returned unchanged. -/
def pyOrInt (a b : Option Int) : Option Int :=
  if optIntTruthy a then a else b

/-- Python `a or b` on optional numbers. -/
def pyOrNum (a b : Option PyNum) : Option PyNum :=
  if optNumTruthy a then a else b

/-- Python `a or b` on optional string lists. -/
def pyOrStrList (a b : Option (List String)) : Option (List String) :=
  if optStrListTruthy a then a else b

/-- Python `a or b` where `a` is an optional string and `b` a plain string
(used for `self.project or global_config.project`). -/
def pyOrStr (a : Option String) (b : String) : String :=
  match a with
  | none => b
  | some s => if s.isEmpty then b else s

/-- One entry of the `sources` list of a serialized grounding config. -/
structure GroundingSourceEntry where
  type_ : String
  inlineContext : Option String
  vertexAiSearchDatastore : Option String
deriving DecidableEq

/-- The dictionary produced by `_to_grounding_source_dict`. -/
structure GroundingSourceDict where
  sources : List GroundingSourceEntry
  disableAttribution : Option Bool
deriving DecidableEq

/-- The closed set of grounding sources (`GroundingSource.WebSearch`,
`GroundingSource.VertexAISearch`, `GroundingSource.InlineContext`). -/
inductive GroundingSource where
  | webSearch (disable_attribution : Bool)
  | vertexAISearch (data_store_id : String) (location : String)
      (project : Option String) (disable_attribution : Bool)
  | inlineContext (inline_context : String)
deriving DecidableEq

/-- Serialization `_to_grounding_source_dict` of each grounding source
variant; `globalProject` stands for `aiplatform_initializer.global_config.project`,
consulted when a `VertexAISearch` source carries no project. -/
def GroundingSource.toGroundingSourceDict (globalProject : String) :
    GroundingSource → GroundingSourceDict
  | .webSearch da =>
      { sources := [{ type_ := "WEB", inlineContext := none,
                      vertexAiSearchDatastore := none }],
        disableAttribution := some da }
  | .inlineContext ic =>
      { sources := [{ type_ := "INLINE", inlineContext := some ic,
                      vertexAiSearchDatastore := none }],
        disableAttribution := none }
  | .vertexAISearch ds loc proj da =>
      { sources := [{ type_ := "VERTEX_AI_SEARCH", inlineContext := none,
                      vertexAiSearchDatastore := some
                        ("projects/" ++ pyOrStr proj globalProject ++ "/locations/"
                          ++ loc ++ "/collections/default_collection/dataStores/" ++ ds) }],
        disableAttribution := some da }

/-- Values stored in a prediction-parameters dictionary. -/
inductive ParamValue where
  | num : PyNum → ParamValue
  | strList : List String → ParamValue
  | groundingCfg : GroundingSourceDict → ParamValue
  | intPairs : List (Int × Int) → ParamValue
deriving DecidableEq

/-- A Python dict built by conditional insertion, as an association list in
insertion order. -/
abbrev ParamDict := List (String × ParamValue)

/-- Key-membership test (`key in d`). -/
def hasKey (m : ParamDict) (k : String) : Bool :=
  m.any (fun kv => kv.1 == k)

/-- Lookup (`d[key]`), first match wins. -/
def getParam (m : ParamDict) (k : String) : Option ParamValue :=
  match m with
  | [] => none
  | kv :: rest => if kv.1 == k then some kv.2 else getParam rest k

/-- One conditional-insertion step: `if cond: d[k] = v` contributes the
singleton segment `[(k, v)]` when `cond` holds, nothing otherwise. -/
def insertIf {α : Type} (present : Bool) (k : String) (v : α) :
    List (String × α) :=
  if present then [(k, v)] else []

/-- The instance dict `{content: prompt}` of a text-generation request. -/
structure TextInstance where
  content : String
deriving DecidableEq

/-- The `_PredictionRequest` built by
`_create_text_generation_prediction_request`. -/
structure TextPredictionRequest where
  instance_ : TextInstance
  parameters : ParamDict
deriving DecidableEq

/-- Embedding of `_create_text_generation_prediction_request` (source lines
1588-1689): insertions into `prediction_parameters` in source order, each
guarded exactly as in the source (`if x:` is truthiness, `if x is not None:`
is `isSome`); int `temperature` and `top_p` are coerced to float. -/
def create_text_generation_prediction_request
    (globalProject : String) (prompt : String)
    (max_output_tokens : Option Int) (temperature : Option PyNum)
    (top_k : Option Int) (top_p : Option PyNum)
    (stop_sequences : Option (List String)) (candidate_count : Option Int)
    (grounding_source : Option GroundingSource) (logprobs : Option Int)
    (presence_penalty : Option PyNum) (frequency_penalty : Option PyNum)
    (logit_bias : Option (List (Int × Int))) : TextPredictionRequest :=
  { instance_ := { content := prompt }
  , parameters :=
      insertIf (optIntTruthy max_output_tokens) "maxDecodeSteps"
        (.num (.int (max_output_tokens.getD 0)))
      ++ insertIf temperature.isSome "temperature"
        (.num ((temperature.getD (.int 0)).toFloat))
      ++ insertIf (optNumTruthy top_p) "topP"
        (.num ((top_p.getD (.int 0)).toFloat))
      ++ insertIf (optIntTruthy top_k) "topK"
        (.num (.int (top_k.getD 0)))
      ++ insertIf (optStrListTruthy stop_sequences) "stopSequences"
        (.strList (stop_sequences.getD []))
      ++ insertIf candidate_count.isSome "candidateCount"
        (.num (.int (candidate_count.getD 0)))
      ++ insertIf grounding_source.isSome "groundingConfig"
        (.groundingCfg ((grounding_source.getD (.webSearch false)).toGroundingSourceDict
          globalProject))
      ++ insertIf logprobs.isSome "logprobs"
        (.num (.int (logprobs.getD 0)))
      ++ insertIf presence_penalty.isSome "presencePenalty"
        (.num (presence_penalty.getD (.int 0)))
      ++ insertIf frequency_penalty.isSome "frequencyPenalty"
        (.num (frequency_penalty.getD (.int 0)))
      ++ insertIf logit_bias.isSome "logitBias"
        (.intPairs (logit_bias.getD [])) }

/-- A chat few-shot example (`InputOutputTextPair`). -/
structure InputOutputTextPair where
  input_text : String
  output_text : String
deriving DecidableEq

/-- A `ChatMessage`: `{content, author}`. -/
structure ChatMessage where
  content : String
  author : String
deriving DecidableEq

/-- Author string of user turns (`_ChatSessionBase.USER_AUTHOR`). -/
def USER_AUTHOR : String := "user"

/-- Author string of model turns (`_ChatSessionBase.MODEL_AUTHOR`). -/
def MODEL_AUTHOR : String := "bot"

/-- The mutable state of a `_ChatSessionBase`: session-level defaults plus the
ordered message history. -/
structure ChatSession where
  context : Option String
  examples : Option (List InputOutputTextPair)
  max_output_tokens : Option Int
  temperature : Option PyNum
  top_k : Option Int
  top_p : Option PyNum
  stop_sequences : Option (List String)
  message_history : List ChatMessage
deriving DecidableEq

/-- Embedding of `_ChatSessionBase.__init__`: stores every default unchanged;
the history is `message_history or []`, which is the supplied list when
present (an empty supplied list and `None` both become `[]`). -/
def init_chat_session (context : Option String)
    (examples : Option (List InputOutputTextPair)) (max_output_tokens : Option Int)
    (temperature : Option PyNum) (top_k : Option Int) (top_p : Option PyNum)
    (message_history : Option (List ChatMessage))
    (stop_sequences : Option (List String)) : ChatSession :=
  { context := context, examples := examples,
    max_output_tokens := max_output_tokens, temperature := temperature,
    top_k := top_k, top_p := top_p, stop_sequences := stop_sequences,
    message_history := message_history.getD [] }

/-- Truthiness of the optional examples list. -/
def optExamplesTruthy : Option (List InputOutputTextPair) → Bool
  | none => false
  | some l => !l.isEmpty

/-- One `{author, content}` entry of the serialized `messages` list. -/
structure MessageStruct where
  author : String
  content : String
deriving DecidableEq

/-- One serialized few-shot example
`{input: {content}, output: {content}}`. -/
structure ExampleStruct where
  input_content : String
  output_content : String
deriving DecidableEq

/-- The chat prediction instance: serialized history plus the new user turn,
with `context` and `examples` attached only when truthy. -/
structure ChatInstance where
  messages : List MessageStruct
  context : Option String
  examples : Option (List ExampleStruct)
deriving DecidableEq

/-- The `_PredictionRequest` built by `_ChatSessionBase._prepare_request`. -/
structure ChatPredictionRequest where
  instance_ : ChatInstance
  parameters : ParamDict
deriving DecidableEq

/-- Embedding of `_ChatSessionBase._prepare_request` (source lines 2449-2551).
Merging: `x or self._x` for `max_output_tokens`, `top_p`, `top_k`,
`stop_sequences` (truthy per-call value wins, otherwise the session default is
used as-is); `temperature` falls back to the session default only when the
per-call value is `None`. Each merged parameter is then inserted under the
same guards as in the source. -/
def prepare_request (globalProject : String) (sess : ChatSession)
    (message : String) (max_output_tokens : Option Int)
    (temperature : Option PyNum) (top_k : Option Int) (top_p : Option PyNum)
    (stop_sequences : Option (List String)) (candidate_count : Option Int)
    (grounding_source : Option GroundingSource) : ChatPredictionRequest :=
  let mot := pyOrInt max_output_tokens sess.max_output_tokens
  let temp := match temperature with
    | none => sess.temperature
    | some t => some t
  let tp := pyOrNum top_p sess.top_p
  let tk := pyOrInt top_k sess.top_k
  let ss := pyOrStrList stop_sequences sess.stop_sequences
  { instance_ :=
      { messages :=
          sess.message_history.map
            (fun pm => { author := pm.author, content := pm.content })
          ++ [{ author := USER_AUTHOR, content := message }]
      , context := if optStrTruthy sess.context then sess.context else none
      , examples :=
          if optExamplesTruthy sess.examples then
            some ((sess.examples.getD []).map
              (fun e => { input_content := e.input_text,
                          output_content := e.output_text }))
          else none }
  , parameters :=
      insertIf (optIntTruthy mot) "maxDecodeSteps" (.num (.int (mot.getD 0)))
      ++ insertIf temp.isSome "temperature"
        (.num ((temp.getD (.int 0)).toFloat))
      ++ insertIf (optNumTruthy tp) "topP" (.num ((tp.getD (.int 0)).toFloat))
      ++ insertIf (optIntTruthy tk) "topK" (.num (.int (tk.getD 0)))
      ++ insertIf (optStrListTruthy ss) "stopSequences" (.strList (ss.getD []))
      ++ insertIf candidate_count.isSome "candidateCount"
        (.num (.int (candidate_count.getD 0)))
      ++ insertIf grounding_source.isSome "groundingConfig"
        (.groundingCfg ((grounding_source.getD (.webSearch false)).toGroundingSourceDict
          globalProject)) }

/-- Raw `safetyAttributes` dict of one candidate, as received on the wire;
every key may be absent or null. -/
structure RawSafetyAttributes where
  blocked : Option Bool
  categories : Option (List String)
  scores : Option (List Rat)
  errors : Option (List Int)
deriving DecidableEq

/-- A `safetyAttributes` dict with no keys (`{}`), the default used by
`prediction.get("safetyAttributes", {})`. -/
def emptyRawSafety : RawSafetyAttributes :=
  { blocked := none, categories := none, scores := none, errors := none }

/-- Raw citation dict (camelCase wire keys), every key optional. -/
structure RawCitation where
  startIndex : Option Int
  endIndex : Option Int
  url : Option String
  title : Option String
  license : Option String
  publicationDate : Option String
deriving DecidableEq

/-- Raw `groundingMetadata` dict: `citations` and `searchQueries` default to
`[]` when absent, which is folded into the representation. -/
structure RawGroundingDict where
  citations : List RawCitation
  searchQueries : List String
deriving DecidableEq

/-- The empty grounding dict `{}`. -/
def emptyRawGrounding : RawGroundingDict := { citations := [], searchQueries := [] }

/-- Parsed `GroundingCitation` (snake_case fields). -/
structure GroundingCitation where
  start_index : Option Int
  end_index : Option Int
  url : Option String
  title : Option String
  license : Option String
  publication_date : Option String
deriving DecidableEq

/-- Parsed `GroundingMetadata`: citations plus search queries. -/
structure GroundingMetadata where
  citations : List GroundingCitation
  search_queries : List String
deriving DecidableEq

/-- Embedding of `GroundingMetadata._parse_citation_from_dict`: renames the
camelCase wire keys (the `int(...)` conversion of the index fields is folded
into the integer representation). -/
def parse_citation_from_dict (c : RawCitation) : GroundingCitation :=
  { start_index := c.startIndex, end_index := c.endIndex, url := c.url,
    title := c.title, license := c.license,
    publication_date := c.publicationDate }

/-- Embedding of `GroundingMetadata.__init__` on a raw dict. -/
def groundingMetadataOfDict (d : RawGroundingDict) : GroundingMetadata :=
  { citations := d.citations.map parse_citation_from_dict,
    search_queries := d.searchQueries }

/-- The `GroundingMetadata` obtained from the empty dict. -/
def emptyGroundingMetadata : GroundingMetadata :=
  { citations := [], search_queries := [] }

/-- Safety-attribute map `dict(zip(categories or [], scores or []))`; either
array may be absent (`None`), in which case the map is empty. -/
def zipSafety (cats : Option (List String)) (scores : Option (List Rat)) :
    List (String × Rat) :=
  (cats.getD []).zip (scores.getD [])

/-- Parsed `TextGenerationResponse` (the `_prediction_response` back-pointer to
the raw payload is omitted: no claim consults it). -/
structure TextGenerationResponse where
  text : String
  is_blocked : Bool
  errors : List Int
  safety_attributes : List (String × Rat)
  grounding_metadata : GroundingMetadata
deriving DecidableEq

/-- Parsed `MultiCandidateTextGenerationResponse`: the flattened primary
fields plus the full candidate list. -/
structure MultiCandidateTextGenerationResponse where
  text : String
  is_blocked : Bool
  errors : List Int
  safety_attributes : List (String × Rat)
  grounding_metadata : GroundingMetadata
  candidates : List TextGenerationResponse
deriving DecidableEq

/-- One raw prediction dict of a text-generation response; `content` is read
with `prediction["content"]`, so a missing key is a parse failure. -/
structure RawTextPrediction where
  content : Option String
  safetyAttributes : Option RawSafetyAttributes
  groundingMetadata : Option RawGroundingDict
deriving DecidableEq

/-- Embedding of `_parse_text_generation_model_response` (source lines
1692-1714): extracts candidate `prediction_idx` from the prediction list;
`none` models a raised KeyError/IndexError. -/
def parse_text_generation_model_response (predictions : List RawTextPrediction)
    (prediction_idx : Nat) : Option TextGenerationResponse :=
  match predictions[prediction_idx]? with
  | none => none
  | some prediction =>
    match prediction.content with
    | none => none
    | some text =>
      let sa := prediction.safetyAttributes.getD emptyRawSafety
      some { text := text
           , is_blocked := sa.blocked.getD false
           , errors := sa.errors.getD []
           , safety_attributes := zipSafety sa.categories sa.scores
           , grounding_metadata :=
               groundingMetadataOfDict (prediction.groundingMetadata.getD emptyRawGrounding) }

/-- The candidate-collection loop `for prediction_idx in range(...)` of the
multi-candidate text parser, over an explicit index list; the whole loop fails
when any single parse fails. -/
def parseTextCandidatesFrom (predictions : List RawTextPrediction) :
    List Nat → Option (List TextGenerationResponse)
  | [] => some []
  | i :: rest =>
    match parse_text_generation_model_response predictions i with
    | none => none
    | some c => (parseTextCandidatesFrom predictions rest).map (c :: ·)

/-- The final constructor call shared by both multi-candidate parsers: reads
`candidates[0]` to flatten the primary fields, an IndexError (`none`) when the
candidate list is empty. -/
def mkMultiResponse (cands : List TextGenerationResponse) :
    Option MultiCandidateTextGenerationResponse :=
  match cands with
  | [] => none
  | c0 :: rest =>
    some { text := c0.text, is_blocked := c0.is_blocked, errors := c0.errors,
           safety_attributes := c0.safety_attributes,
           grounding_metadata := c0.grounding_metadata, candidates := c0 :: rest }

/-- Embedding of `_parse_text_generation_model_multi_candidate_response`
(source lines 1717-1742). -/
def parse_text_generation_model_multi_candidate_response
    (predictions : List RawTextPrediction) :
    Option MultiCandidateTextGenerationResponse :=
  (parseTextCandidatesFrom predictions (List.range predictions.length)).bind
    mkMultiResponse

/-- One raw candidate dict of a chat prediction; only `content` is read, with
`[...]["content"]`, so a missing key is a parse failure. -/
structure RawChatCandidate where
  content : Option String
deriving DecidableEq

/-- One raw prediction dict of a chat response. `candidates` and
`safetyAttributes` are read with mandatory indexing; `groundingMetadata` is
read with `.get` (absent is `none`) and its entries may be null. -/
structure RawChatPrediction where
  candidates : List RawChatCandidate
  safetyAttributes : List RawSafetyAttributes
  groundingMetadata : Option (List (Option RawGroundingDict))
deriving DecidableEq

/-- The grounding dict used for candidate `i`, following
`if grounding_metadata_list and grounding_metadata_list[candidate_idx]:`
exactly: an absent or empty list falls back to `{}` for every candidate; a
non-empty list is indexed, so an out-of-range index is an IndexError (`none`),
and a null in-range entry falls back to `{}`. -/
def groundingDictFor (lst : Option (List (Option RawGroundingDict)))
    (i : Nat) : Option RawGroundingDict :=
  match lst with
  | none => some emptyRawGrounding
  | some l =>
    if l.isEmpty then some emptyRawGrounding
    else
      match l[i]? with
      | none => none
      | some none => some emptyRawGrounding
      | some (some d) => some d

/-- One iteration of the candidate loop of
`_ChatSessionBase._parse_chat_prediction_response`: all raised exceptions
(IndexError on `safetyAttributes` or `groundingMetadata`, KeyError on
`content`) are `none`. -/
def parseChatCandidate (pred : RawChatPrediction) (i : Nat) :
    Option TextGenerationResponse :=
  match pred.candidates[i]?, pred.safetyAttributes[i]? with
  | some cand, some sa =>
    match cand.content, groundingDictFor pred.groundingMetadata i with
    | some text, some gdict =>
      some { text := text
           , is_blocked := sa.blocked.getD false
           , errors := sa.errors.getD []
           , safety_attributes := zipSafety sa.categories sa.scores
           , grounding_metadata := groundingMetadataOfDict gdict }
    | _, _ => none
  | _, _ => none

/-- The candidate loop of the chat parser over an explicit index list. -/
def parseChatCandidatesFrom (pred : RawChatPrediction) :
    List Nat → Option (List TextGenerationResponse)
  | [] => some []
  | i :: rest =>
    match parseChatCandidate pred i with
    | none => none
    | some c => (parseChatCandidatesFrom pred rest).map (c :: ·)

/-- Embedding of `_ChatSessionBase._parse_chat_prediction_response` (source
lines 2553-2604): parses prediction `prediction_idx`, looping over
`range(len(prediction["candidates"]))`, then flattens the primary candidate. -/
def parse_chat_prediction_response (predictions : List RawChatPrediction)
    (prediction_idx : Nat) : Option MultiCandidateTextGenerationResponse :=
  match predictions[prediction_idx]? with
  | none => none
  | some prediction =>
    (parseChatCandidatesFrom prediction
      (List.range prediction.candidates.length)).bind mkMultiResponse

/-- A transport error raised by the external RPC collaborator. -/
structure TransportError where
  message : String
deriving DecidableEq

/-- What `send_message` can raise: the propagated transport error, or an
exception inside response parsing. -/
inductive SendError where
  | transport (e : TransportError)
  | parseFailure
deriving DecidableEq

/-- Embedding of `_ChatSessionBase.send_message` (source lines 2606-2671). The
endpooint collaborator is an oracle from the built request to either a
transport error or the raw prediction list. The pair returned is (what the
call returns or raises, the session state after the call): on any error the
session is returned untouched; on success the user turn and the parsed
primary text are appended, with no failure point between the two appends. -/
def send_message (globalProject : String) (sess : ChatSession)
    (message : String) (max_output_tokens : Option Int)
    (temperature : Option PyNum) (top_k : Option Int) (top_p : Option PyNum)
    (stop_sequences : Option (List String)) (candidate_count : Option Int)
    (grounding_source : Option GroundingSource)
    (endpoint : ChatPredictionRequest →
      Except TransportError (List RawChatPrediction)) :
    Except SendError MultiCandidateTextGenerationResponse × ChatSession :=
  match endpoint (prepare_request globalProject sess message
    max_output_tokens temperature top_k top_p stop_sequences candidate_count
    grounding_source) with
  | .error e => (.error (.transport e), sess)
  | .ok predictions =>
    match parse_chat_prediction_response predictions 0 with
    | none => (.error .parseFailure, sess)
    | some response_obj =>
      (.ok response_obj,
        { sess with
            message_history := sess.message_history ++
              [{ content := message, author := USER_AUTHOR },
               { content := response_obj.text, author := MODEL_AUTHOR }] })

/-- Runtime state of the generator returned by
`_ChatSessionBase.send_message_streaming`: the chunks not yet yielded, the
`full_response_text` accumulator, whether the post-loop commit has run, and
the (shared, mutable) session. -/
structure StreamState where
  remaining : List RawChatPrediction
  full_response_text : String
  committed : Bool
  sess : ChatSession
deriving DecidableEq

/-- Embedding of `send_message_streaming` (source lines 2740-2809) up to its
first suspension: builds the request (note: the streaming signature has no
`candidate_count` or `grounding_source`, so both are `None`), obtains the
chunk stream from the endpoint oracle, and suspends before any chunk is
processed. Nothing is committed at this point. -/
def send_message_streaming (globalProject : String) (sess : ChatSession)
    (message : String) (max_output_tokens : Option Int)
    (temperature : Option PyNum) (top_k : Option Int) (top_p : Option PyNum)
    (stop_sequences : Option (List String))
    (endpointStream : ChatPredictionRequest → List RawChatPrediction) :
    StreamState :=
  { remaining := endpointStream (prepare_request globalProject sess message
      max_output_tokens temperature top_k top_p stop_sequences none none)
  , full_response_text := ""
  , committed := false
  , sess := sess }

/-- One `next()` call on the streaming generator. While chunks remain, the
next chunk is parsed (a parse exception propagates: `.error`, and the
generator is dead with nothing committed), accumulated into
`full_response_text`, and yielded (`some response`). When the stream is
exhausted, the commit code after the loop appends the user turn and the
accumulated text to the session and `StopIteration` is raised (`none`
yielded). Discarding the iterator simply means never calling this again: the
commit branch is unreachable, which is exactly the source's behavior (closing
the generator raises GeneratorExit at the yield, skipping the commit). -/
def streamNext (message : String) (st : StreamState) :
    Except Unit (Option MultiCandidateTextGenerationResponse × StreamState) :=
  match st.remaining with
  | [] =>
    if st.committed then .ok (none, st)
    else
      .ok (none,
        { st with
            committed := true
          , sess := { st.sess with
              message_history := st.sess.message_history ++
                [{ content := message, author := USER_AUTHOR },
                 { content := st.full_response_text, author := MODEL_AUTHOR }] } })
  | chunk :: rest =>
    match parse_chat_prediction_response [chunk] 0 with
    | none => .error ()
    | some resp =>
      .ok (some resp,
        { st with
            remaining := rest
          , full_response_text := st.full_response_text ++ resp.text })

/-- The caller advancing the stream `n` times (`n` calls to `next()`). -/
def consumeN (message : String) : Nat → StreamState → Except Unit StreamState
  | 0, st => .ok st
  | n + 1, st =>
    match streamNext message st with
    | .error e => .error e
    | .ok (_, st') => consumeN message n st'

/-- The supported accelerator types (`_ACCELERATOR_TYPES`). -/
def ACCELERATOR_TYPES : List String := ["TPU", "GPU"]

/-- Validation exceptions raised by `tune_model`. -/
inductive TuneError where
  | valueError (msg : String)
  | typeError (msg : String)
deriving DecidableEq

/-- The value a caller passes as `evaluation_data`: annotated `Optional[str]`
but any object can arrive, and the code branches on `isinstance(..., str)`.
`nonString` stands for an arbitrary non-string (truthy) object. -/
inductive EvalData where
  | str (s : String)
  | nonString
deriving DecidableEq

/-- The value a caller passes as `tensorboard`: an `aiplatform.Tensorboard`
instance (carrying a location and a resource name), a resource-name URI
string (carrying the location its parse yields), or anything else. -/
inductive TensorboardRef where
  | tbInstance (location : String) (resource_name : String)
  | tbUri (location : String) (uri : String)
  | tbOther
deriving DecidableEq

/-- A `TuningEvaluationSpec`. -/
structure TuningEvaluationSpec where
  evaluation_data : Option EvalData
  evaluation_interval : Option Int
  enable_early_stopping : Option Bool
  enable_checkpoint_selection : Option Bool
  tensorboard : Option TensorboardRef
deriving DecidableEq

/-- Values of the tuning-parameters dict. -/
inductive TuneParamValue where
  | int (n : Int)
  | float (q : Rat)
  | str (s : String)
  | bool (b : Bool)
deriving DecidableEq

/-- Embedding of `_get_tensorboard_resource_id_from_evaluation_spec` (source
lines 81-119), applied to the spec's `tensorboard` field. -/
def get_tensorboard_resource_id (tensorboard : Option TensorboardRef)
    (tuning_job_location : Option String) :
    Except TuneError (Option String) :=
  match tensorboard with
  | none => .ok none
  | some (.tbInstance loc rn) =>
    if tuning_job_location != some loc then
      .error (.valueError "The Tensorboard must be in the same location as the tuning job.")
    else .ok (some rn)
  | some (.tbUri loc uri) =>
    if tuning_job_location != some loc then
      .error (.valueError "The Tensorboard must be in the same location as the tuning job.")
    else .ok (some uri)
  | some .tbOther => .error (.typeError "Tensorboard should be a URI string")

/-- Embedding of the synchronous validation and parameter-assembly phase of
`_TunableModelMixin.tune_model` (source lines 218-328). A `.ok` result is the
`tuning_parameters` dict handed to `_tune_model`, which is the first point
where any network call is made and the tuning pipeline job is launched; a
`.error` result is an exception raised before `_tune_model` is reached, so no
network call or job launch happens and no state changes. `training_data`,
locations and the display name are passed through unvalidated here and are
omitted. -/
def tune_model (train_steps : Option Int) (learning_rate : Option Rat)
    (learning_rate_multiplier : Option Rat)
    (tuning_job_location : Option String)
    (tuning_evaluation_spec : Option TuningEvaluationSpec)
    (default_context : Option String) (accelerator_type : Option String)
    (max_context_length : Option String) :
    Except TuneError (List (String × TuneParamValue)) := do
  let p1 : List (String × TuneParamValue) :=
    insertIf train_steps.isSome "train_steps" (.int (train_steps.getD 0))
    ++ insertIf learning_rate.isSome "learning_rate"
        (.float (learning_rate.getD 0))
    ++ insertIf learning_rate_multiplier.isSome "learning_rate_multiplier"
        (.float (learning_rate_multiplier.getD 0))
  let p2 ← match tuning_evaluation_spec with
    | none => pure p1
    | some eval_spec => do
      let pe1 ← match eval_spec.evaluation_data with
        | none => pure p1
        | some (.str s) =>
          if s = "" then pure p1
          else if s.startsWith "gs://" then
            pure (p1 ++ [("evaluation_data_uri", TuneParamValue.str s)])
          else throw (TuneError.valueError "evaluation_data should be a GCS URI")
        | some .nonString =>
          throw (TuneError.typeError "evaluation_data should be a URI string")
      let pe2 := pe1
        ++ insertIf eval_spec.evaluation_interval.isSome "evaluation_interval"
            (.int (eval_spec.evaluation_interval.getD 0))
        ++ insertIf eval_spec.enable_early_stopping.isSome
            "enable_early_stopping"
            (.bool (eval_spec.enable_early_stopping.getD false))
        ++ insertIf eval_spec.enable_checkpoint_selection.isSome
            "enable_checkpoint_selection"
            (.bool (eval_spec.enable_checkpoint_selection.getD false))
      let tb ← get_tensorboard_resource_id eval_spec.tensorboard
        tuning_job_location
      pure (pe2 ++ insertIf tb.isSome "tensorboard_resource_id"
        (.str (tb.getD "")))
  let p3 := p2 ++ insertIf (optStrTruthy default_context) "default_context"
    (.str (default_context.getD ""))
  let p4 ← match accelerator_type with
    | none => pure p3
    | some a =>
      if a = "" then pure p3
      else if a ∈ ACCELERATOR_TYPES then
        pure (p3 ++ [("accelerator_type", TuneParamValue.str a)])
      else throw (TuneError.valueError "Unsupported accelerator type")
  pure (p4 ++ insertIf (optStrTruthy max_context_length) "max_context_length"
    (.str (max_context_length.getD "")))

/-- A chat session with no defaults and empty history, used as a concrete
test fixture. -/
def emptySession : ChatSession :=
  { context := none, examples := none, max_output_tokens := none,
    temperature := none, top_k := none, top_p := none,
    stop_sequences := none, message_history := [] }

/-- A concrete single-candidate chat prediction whose candidate text is
`"4"`. -/
def chunkA : RawChatPrediction :=
  { candidates := [{ content := some "4" }]
  , safetyAttributes := [{ blocked := some false, categories := none,
                           scores := none, errors := none }]
  , groundingMetadata := none }

/-- A concrete single-candidate chat prediction whose candidate text is
`"!"`. -/
def chunkB : RawChatPrediction :=
  { candidates := [{ content := some "!" }]
  , safetyAttributes := [{ blocked := some false, categories := none,
                           scores := none, errors := none }]
  , groundingMetadata := none }

/-- The parsed response of `chunkA`. -/
def respA : MultiCandidateTextGenerationResponse :=
  { text := "4", is_blocked := false, errors := [], safety_attributes := []
  , grounding_metadata := emptyGroundingMetadata
  , candidates := [{ text := "4", is_blocked := false, errors := []
                   , safety_attributes := []
                   , grounding_metadata := emptyGroundingMetadata }] }

/-- A concrete raw text-generation prediction with content `"4"`. -/
def textPredA : RawTextPrediction :=
  { content := some "4", safetyAttributes := none, groundingMetadata := none }

/-- The parsed multi-candidate response of `[textPredA]`. -/
def textRespA : MultiCandidateTextGenerationResponse :=
  { text := "4", is_blocked := false, errors := [], safety_attributes := []
  , grounding_metadata := emptyGroundingMetadata
  , candidates := [{ text := "4", is_blocked := false, errors := []
                   , safety_attributes := []
                   , grounding_metadata := emptyGroundingMetadata }] }

/-- The session state after one successful `send_message("2+2?")` on
`emptySession` answered by `chunkA`. -/
def sessAfterA : ChatSession :=
  { context := none, examples := none, max_output_tokens := none,
    temperature := none, top_k := none, top_p := none,
    stop_sequences := none,
    message_history := [{ content := "2+2?", author := USER_AUTHOR },
                        { content := "4", author := MODEL_AUTHOR }] }

/-- A session started from a caller-supplied `message_history` of odd length
(one lone user turn), as `__init__` accepts without validation. -/
def oddSession : ChatSession :=
  init_chat_session none none none none none none
    (some [{ content := "hello", author := USER_AUTHOR }]) none

/-- The text contributed by one stream chunk: the `text` of its parsed
response (unused fallback `""` for a chunk that fails to parse — such a
chunk kills the stream before its text is accumulated). -/
def chunkText (c : RawChatPrediction) : String :=
  match parse_chat_prediction_response [c] 0 with
  | some r => r.text
  | none => ""

theorem hasKey_insertIf_append (p : Bool) (k' k : String) (v : ParamValue)
    (rest : ParamDict) :
    hasKey (insertIf p k' v ++ rest) k = ((p && (k' == k)) || hasKey rest k) := by
  cases p <;> simp [insertIf, hasKey]

theorem hasKey_insertIf (p : Bool) (k' k : String) (v : ParamValue) :
    hasKey (insertIf p k' v) k = (p && (k' == k)) := by
  cases p <;> simp [insertIf, hasKey]

theorem getParam_insertIf_append (p : Bool) (k' k : String) (v : ParamValue)
    (rest : ParamDict) :
    getParam (insertIf p k' v ++ rest) k
      = if p && (k' == k) then some v else getParam rest k := by
  cases p <;> simp [insertIf, getParam]

theorem getParam_insertIf (p : Bool) (k' k : String) (v : ParamValue) :
    getParam (insertIf p k' v) k = if p && (k' == k) then some v else none := by
  cases p <;> simp [insertIf, getParam]

/-- C5 counterexample: with `top_p=0`, `top_k=0` and `max_output_tokens=0`
explicitly supplied (and everything else unset), the built request's
parameter map contains none of the keys `topP`, `topK`, `maxDecodeSteps`,
contradicting the claim that every explicitly set parameter — including an
explicit zero — has its key present. -/
theorem omission_roundtrip_counterexample :
    hasKey (create_text_generation_prediction_request "proj" "prompt"
      (some 0) none (some 0) (some (PyNum.int 0)) none none none none none
      none none).parameters "topP" = false
    ∧ hasKey (create_text_generation_prediction_request "proj" "prompt"
      (some 0) none (some 0) (some (PyNum.int 0)) none none none none none
      none none).parameters "topK" = false
    ∧ hasKey (create_text_generation_prediction_request "proj" "prompt"
      (some 0) none (some 0) (some (PyNum.int 0)) none none none none none
      none none).parameters "maxDecodeSteps" = false := by
  decide

/-- C5 (amended): every parameter left as `None` has no key in the built
parameter map. Parameters guarded by `is not None` in the source
(`temperature`, `candidate_count`, `grounding_source`, `logprobs`,
`presence_penalty`, `frequency_penalty`, `logit_bias`) are present whenever
supplied, including explicit zeros, with int `temperature` coerced to float.
Parameters guarded by truthiness (`max_output_tokens`, `top_k`, `top_p`,
`stop_sequences`) are present only when the supplied value is truthy — an
explicit `0` (or empty list) is omitted exactly like `None` — with int
`top_p` coerced to float. -/
theorem omission_roundtrip (gp prompt : String) (mot : Option Int)
    (temp : Option PyNum) (tk : Option Int) (tp : Option PyNum)
    (ss : Option (List String)) (cc : Option Int)
    (gs : Option GroundingSource) (lp : Option Int) (pp fp : Option PyNum)
    (lb : Option (List (Int × Int))) :
    (mot = none →
      hasKey (create_text_generation_prediction_request gp prompt mot temp tk
        tp ss cc gs lp pp fp lb).parameters "maxDecodeSteps" = false)
    ∧ (∀ n, mot = some n →
      hasKey (create_text_generation_prediction_request gp prompt mot temp tk
        tp ss cc gs lp pp fp lb).parameters "maxDecodeSteps" = (n != 0)
      ∧ (n ≠ 0 →
        getParam (create_text_generation_prediction_request gp prompt mot temp
          tk tp ss cc gs lp pp fp lb).parameters "maxDecodeSteps"
          = some (.num (.int n))))
    ∧ (temp = none →
      hasKey (create_text_generation_prediction_request gp prompt mot temp tk
        tp ss cc gs lp pp fp lb).parameters "temperature" = false)
    ∧ (∀ t, temp = some t →
      getParam (create_text_generation_prediction_request gp prompt mot temp
        tk tp ss cc gs lp pp fp lb).parameters "temperature"
        = some (.num t.toFloat))
    ∧ (tp = none →
      hasKey (create_text_generation_prediction_request gp prompt mot temp tk
        tp ss cc gs lp pp fp lb).parameters "topP" = false)
    ∧ (∀ v, tp = some v →
      hasKey (create_text_generation_prediction_request gp prompt mot temp tk
        tp ss cc gs lp pp fp lb).parameters "topP" = v.truthy
      ∧ (v.truthy = true →
        getParam (create_text_generation_prediction_request gp prompt mot temp
          tk tp ss cc gs lp pp fp lb).parameters "topP"
          = some (.num v.toFloat)))
    ∧ (tk = none →
      hasKey (create_text_generation_prediction_request gp prompt mot temp tk
        tp ss cc gs lp pp fp lb).parameters "topK" = false)
    ∧ (∀ n, tk = some n →
      hasKey (create_text_generation_prediction_request gp prompt mot temp tk
        tp ss cc gs lp pp fp lb).parameters "topK" = (n != 0)
      ∧ (n ≠ 0 →
        getParam (create_text_generation_prediction_request gp prompt mot temp
          tk tp ss cc gs lp pp fp lb).parameters "topK"
          = some (.num (.int n))))
    ∧ (ss = none →
      hasKey (create_text_generation_prediction_request gp prompt mot temp tk
        tp ss cc gs lp pp fp lb).parameters "stopSequences" = false)
    ∧ (∀ l, ss = some l →
      hasKey (create_text_generation_prediction_request gp prompt mot temp tk
        tp ss cc gs lp pp fp lb).parameters "stopSequences" = !l.isEmpty
      ∧ (l ≠ [] →
        getParam (create_text_generation_prediction_request gp prompt mot temp
          tk tp ss cc gs lp pp fp lb).parameters "stopSequences"
          = some (.strList l)))
    ∧ (cc = none →
      hasKey (create_text_generation_prediction_request gp prompt mot temp tk
        tp ss cc gs lp pp fp lb).parameters "candidateCount" = false)
    ∧ (∀ n, cc = some n →
      getParam (create_text_generation_prediction_request gp prompt mot temp
        tk tp ss cc gs lp pp fp lb).parameters "candidateCount"
        = some (.num (.int n)))
    ∧ (gs = none →
      hasKey (create_text_generation_prediction_request gp prompt mot temp tk
        tp ss cc gs lp pp fp lb).parameters "groundingConfig" = false)
    ∧ (∀ g, gs = some g →
      getParam (create_text_generation_prediction_request gp prompt mot temp
        tk tp ss cc gs lp pp fp lb).parameters "groundingConfig"
        = some (.groundingCfg (g.toGroundingSourceDict gp)))
    ∧ (lp = none →
      hasKey (create_text_generation_prediction_request gp prompt mot temp tk
        tp ss cc gs lp pp fp lb).parameters "logprobs" = false)
    ∧ (∀ n, lp = some n →
      getParam (create_text_generation_prediction_request gp prompt mot temp
        tk tp ss cc gs lp pp fp lb).parameters "logprobs"
        = some (.num (.int n)))
    ∧ (pp = none →
      hasKey (create_text_generation_prediction_request gp prompt mot temp tk
        tp ss cc gs lp pp fp lb).parameters "presencePenalty" = false)
    ∧ (∀ v, pp = some v →
      getParam (create_text_generation_prediction_request gp prompt mot temp
        tk tp ss cc gs lp pp fp lb).parameters "presencePenalty"
        = some (.num v))
    ∧ (fp = none →
      hasKey (create_text_generation_prediction_request gp prompt mot temp tk
        tp ss cc gs lp pp fp lb).parameters "frequencyPenalty" = false)
    ∧ (∀ v, fp = some v →
      getParam (create_text_generation_prediction_request gp prompt mot temp
        tk tp ss cc gs lp pp fp lb).parameters "frequencyPenalty"
        = some (.num v))
    ∧ (lb = none →
      hasKey (create_text_generation_prediction_request gp prompt mot temp tk
        tp ss cc gs lp pp fp lb).parameters "logitBias" = false)
    ∧ (∀ m, lb = some m →
      getParam (create_text_generation_prediction_request gp prompt mot temp
        tk tp ss cc gs lp pp fp lb).parameters "logitBias"
        = some (.intPairs m)) := by
  refine ⟨?_, ?_, ?_, ?_, ?_, ?_, ?_, ?_, ?_, ?_, ?_, ?_, ?_, ?_, ?_, ?_,
    ?_, ?_, ?_, ?_, ?_, ?_⟩ <;>
    first
    | (intro h; subst h;
       simp [create_text_generation_prediction_request, hasKey_insertIf_append,
         hasKey_insertIf, getParam_insertIf_append, getParam_insertIf,
         optIntTruthy, optNumTruthy, optStrListTruthy])
    | (intro x h; subst h;
       constructor <;>
       simp [create_text_generation_prediction_request, hasKey_insertIf_append,
         hasKey_insertIf, getParam_insertIf_append, getParam_insertIf,
         optIntTruthy, optNumTruthy, optStrListTruthy])
    | (intro x h; subst h;
       simp [create_text_generation_prediction_request, hasKey_insertIf_append,
         hasKey_insertIf, getParam_insertIf_append, getParam_insertIf,
         optIntTruthy, optNumTruthy, optStrListTruthy])

/-- C5 witness: applying the amended omission theorem at a concrete input
(explicit `temperature=0`): the key is present with the float-coerced zero. -/
theorem omission_roundtrip_witness :
    getParam (create_text_generation_prediction_request "proj" "prompt" none
      (some (PyNum.int 0)) none none none none none none none none
      none).parameters "temperature" = some (.num ((PyNum.int 0).toFloat)) :=
  (omission_roundtrip "proj" "prompt" none (some (PyNum.int 0)) none none none
    none none none none none none).2.2.2.1 (PyNum.int 0) rfl

/-- C6 counterexample: a session whose default `top_p` is `0.5` and a call
supplying the explicit per-call argument `top_p=0`: the built request carries
`topP = 0.5` — the session default — not the explicitly supplied per-call
value, contradicting the claimed precedence of per-call arguments over
session defaults. -/
theorem defaults_merge_counterexample :
    getParam (prepare_request "proj"
      { context := none, examples := none, max_output_tokens := none,
        temperature := none, top_k := none,
        top_p := some (PyNum.float (mkRat 1 2)), stop_sequences := none,
        message_history := [] }
      "hi" none none none (some (PyNum.int 0)) none none none).parameters
      "topP" = some (.num (.float (mkRat 1 2)))
    ∧ ParamValue.num (PyNum.float (mkRat 1 2))
      ≠ ParamValue.num ((PyNum.int 0).toFloat) := by
  constructor
  · decide
  · decide

/-- C6 (amended): in `_prepare_request` the merge of per-call arguments with
session defaults is three-level only for `temperature` (any non-`None`
per-call value, including `0`, wins; otherwise the session default is used;
both absent omits the key). For `max_output_tokens`, `top_k`, `top_p` and
`stop_sequences` the merge is Python `or`: a truthy per-call value wins, but
a falsy per-call value (`0`, empty list) is treated like `None` and the
session default is used; when the merged value is falsy the key is omitted. -/
theorem defaults_merge (gp msg : String) (sess : ChatSession)
    (mot : Option Int) (temp : Option PyNum) (tk : Option Int)
    (tp : Option PyNum) (ss : Option (List String)) (cc : Option Int)
    (gs : Option GroundingSource) :
    (∀ t, temp = some t →
      getParam (prepare_request gp sess msg mot temp tk tp ss cc
        gs).parameters "temperature" = some (.num t.toFloat))
    ∧ (temp = none → ∀ t, sess.temperature = some t →
      getParam (prepare_request gp sess msg mot temp tk tp ss cc
        gs).parameters "temperature" = some (.num t.toFloat))
    ∧ (temp = none → sess.temperature = none →
      hasKey (prepare_request gp sess msg mot temp tk tp ss cc
        gs).parameters "temperature" = false)
    ∧ (∀ n, mot = some n → n ≠ 0 →
      getParam (prepare_request gp sess msg mot temp tk tp ss cc
        gs).parameters "maxDecodeSteps" = some (.num (.int n)))
    ∧ (optIntTruthy mot = false → ∀ n, sess.max_output_tokens = some n →
      n ≠ 0 →
      getParam (prepare_request gp sess msg mot temp tk tp ss cc
        gs).parameters "maxDecodeSteps" = some (.num (.int n)))
    ∧ (optIntTruthy mot = false →
      optIntTruthy sess.max_output_tokens = false →
      hasKey (prepare_request gp sess msg mot temp tk tp ss cc
        gs).parameters "maxDecodeSteps" = false)
    ∧ (∀ v, tp = some v → v.truthy = true →
      getParam (prepare_request gp sess msg mot temp tk tp ss cc
        gs).parameters "topP" = some (.num v.toFloat))
    ∧ (optNumTruthy tp = false → ∀ v, sess.top_p = some v →
      v.truthy = true →
      getParam (prepare_request gp sess msg mot temp tk tp ss cc
        gs).parameters "topP" = some (.num v.toFloat))
    ∧ (optNumTruthy tp = false → optNumTruthy sess.top_p = false →
      hasKey (prepare_request gp sess msg mot temp tk tp ss cc
        gs).parameters "topP" = false)
    ∧ (∀ n, tk = some n → n ≠ 0 →
      getParam (prepare_request gp sess msg mot temp tk tp ss cc
        gs).parameters "topK" = some (.num (.int n)))
    ∧ (optIntTruthy tk = false → ∀ n, sess.top_k = some n → n ≠ 0 →
      getParam (prepare_request gp sess msg mot temp tk tp ss cc
        gs).parameters "topK" = some (.num (.int n)))
    ∧ (optIntTruthy tk = false → optIntTruthy sess.top_k = false →
      hasKey (prepare_request gp sess msg mot temp tk tp ss cc
        gs).parameters "topK" = false)
    ∧ (∀ l, ss = some l → l ≠ [] →
      getParam (prepare_request gp sess msg mot temp tk tp ss cc
        gs).parameters "stopSequences" = some (.strList l))
    ∧ (optStrListTruthy ss = false → ∀ l, sess.stop_sequences = some l →
      l ≠ [] →
      getParam (prepare_request gp sess msg mot temp tk tp ss cc
        gs).parameters "stopSequences" = some (.strList l))
    ∧ (optStrListTruthy ss = false →
      optStrListTruthy sess.stop_sequences = false →
      hasKey (prepare_request gp sess msg mot temp tk tp ss cc
        gs).parameters "stopSequences" = false) := by
  refine ⟨?_, ?_, ?_, ?_, ?_, ?_, ?_, ?_, ?_, ?_, ?_, ?_, ?_, ?_, ?_⟩ <;>
  · intros
    subst_vars
    simp_all [prepare_request, hasKey_insertIf_append, hasKey_insertIf,
      getParam_insertIf_append, getParam_insertIf, pyOrInt, pyOrNum,
      pyOrStrList, optIntTruthy, optNumTruthy, optStrListTruthy]

theorem mkMultiResponse_flatten (cands : List TextGenerationResponse)
    (r : MultiCandidateTextGenerationResponse)
    (h : mkMultiResponse cands = some r) :
    ∃ c rest, r.candidates = c :: rest ∧ r.text = c.text
      ∧ r.is_blocked = c.is_blocked ∧ r.errors = c.errors
      ∧ r.safety_attributes = c.safety_attributes
      ∧ r.grounding_metadata = c.grounding_metadata := by
  cases cands with
  | nil => simp [mkMultiResponse] at h
  | cons c0 rest =>
    refine ⟨c0, rest, ?_⟩
    simp only [mkMultiResponse, Option.some.injEq] at h
    subst h
    simp

/-- C4: for every `MultiCandidateTextGenerationResponse` produced by either
response parser, the candidate list is non-empty and the wrapper's flattened
fields (`text`, `is_blocked`, `errors`, `safety_attributes`,
`grounding_metadata`) equal the first candidate's fields. -/
theorem flattening_invariant (cpreds : List RawChatPrediction)
    (tpreds : List RawTextPrediction) (i : Nat)
    (r r' : MultiCandidateTextGenerationResponse) :
    (parse_chat_prediction_response cpreds i = some r →
      1 ≤ r.candidates.length ∧ ∃ c, r.candidates.head? = some c
        ∧ r.text = c.text ∧ r.is_blocked = c.is_blocked
        ∧ r.errors = c.errors ∧ r.safety_attributes = c.safety_attributes
        ∧ r.grounding_metadata = c.grounding_metadata)
    ∧ (parse_text_generation_model_multi_candidate_response tpreds = some r' →
      1 ≤ r'.candidates.length ∧ ∃ c, r'.candidates.head? = some c
        ∧ r'.text = c.text ∧ r'.is_blocked = c.is_blocked
        ∧ r'.errors = c.errors ∧ r'.safety_attributes = c.safety_attributes
        ∧ r'.grounding_metadata = c.grounding_metadata) := by
  constructor
  · intro h
    cases hp : cpreds[i]? with
    | none => simp [parse_chat_prediction_response, hp] at h
    | some pred =>
      simp only [parse_chat_prediction_response, hp] at h
      obtain ⟨cands, hc, hm⟩ := Option.bind_eq_some.mp h
      obtain ⟨c, rest, hcand, ht, hb, he, hs, hg⟩ :=
        mkMultiResponse_flatten cands r hm
      exact ⟨by simp [hcand], c, by simp [hcand], ht, hb, he, hs, hg⟩
  · intro h
    obtain ⟨cands, hc, hm⟩ := Option.bind_eq_some.mp h
    obtain ⟨c, rest, hcand, ht, hb, he, hs, hg⟩ :=
      mkMultiResponse_flatten cands r' hm
    exact ⟨by simp [hcand], c, by simp [hcand], ht, hb, he, hs, hg⟩

/-- C4 witness: the flattening invariant applied to concrete parses of both a
chat prediction and a text-generation prediction. -/
theorem flattening_invariant_witness :
    (1 ≤ respA.candidates.length ∧ ∃ c, respA.candidates.head? = some c
      ∧ respA.text = c.text ∧ respA.is_blocked = c.is_blocked
      ∧ respA.errors = c.errors
      ∧ respA.safety_attributes = c.safety_attributes
      ∧ respA.grounding_metadata = c.grounding_metadata)
    ∧ (1 ≤ textRespA.candidates.length
      ∧ ∃ c, textRespA.candidates.head? = some c
      ∧ textRespA.text = c.text ∧ textRespA.is_blocked = c.is_blocked
      ∧ textRespA.errors = c.errors
      ∧ textRespA.safety_attributes = c.safety_attributes
      ∧ textRespA.grounding_metadata = c.grounding_metadata) :=
  ⟨(flattening_invariant [chunkA] [textPredA] 0 respA textRespA).1 (by decide),
   (flattening_invariant [chunkA] [textPredA] 0 respA textRespA).2 (by decide)⟩

/-- C6 witness: the amended merge theorem applied at a concrete input where
the per-call `temperature=0` overrides a session default of `1.0`. -/
theorem defaults_merge_witness :
    getParam (prepare_request "proj"
      { context := none, examples := none, max_output_tokens := none,
        temperature := some (PyNum.float 1), top_k := none, top_p := none,
        stop_sequences := none, message_history := [] }
      "hi" none (some (PyNum.int 0)) none none none none none).parameters
      "temperature" = some (.num ((PyNum.int 0).toFloat)) :=
  (defaults_merge "proj" "hi"
    { context := none, examples := none, max_output_tokens := none,
      temperature := some (PyNum.float 1), top_k := none, top_p := none,
      stop_sequences := none, message_history := [] }
    none (some (PyNum.int 0)) none none none none none).1 (PyNum.int 0) rfl

theorem parse_chat_primary (preds : List RawChatPrediction) (i : Nat)
    (r : MultiCandidateTextGenerationResponse)
    (h : parse_chat_prediction_response preds i = some r) :
    ∃ c, r.candidates.head? = some c ∧ r.text = c.text := by
  cases hp : preds[i]? with
  | none => simp [parse_chat_prediction_response, hp] at h
  | some pred =>
    simp only [parse_chat_prediction_response, hp] at h
    obtain ⟨cands, hc, hm⟩ := Option.bind_eq_some.mp h
    obtain ⟨c, rest, hcand, ht, _⟩ := mkMultiResponse_flatten cands r hm
    exact ⟨c, by simp [hcand], ht⟩

/-- C1: a successful `send_message(S, m)` grows `S.message_history` by
exactly two turns, the user turn `{content=m, author=USER_AUTHOR}` followed
by the model turn holding the returned response's text — which is the parsed
primary candidate's text — and both are appended in one step with no failure
point between them. -/
theorem send_message_atomic_commit (gp msg : String)
    (sess sess' : ChatSession) (mot : Option Int) (temp : Option PyNum)
    (tk : Option Int) (tp : Option PyNum) (ss : Option (List String))
    (cc : Option Int) (gs : Option GroundingSource)
    (endpoint : ChatPredictionRequest →
      Except TransportError (List RawChatPrediction))
    (resp : MultiCandidateTextGenerationResponse)
    (h : send_message gp sess msg mot temp tk tp ss cc gs endpoint
      = (.ok resp, sess')) :
    sess'.message_history = sess.message_history ++
      [{ content := msg, author := USER_AUTHOR },
       { content := resp.text, author := MODEL_AUTHOR }]
    ∧ sess'.message_history.length = sess.message_history.length + 2
    ∧ ∃ c, resp.candidates.head? = some c ∧ resp.text = c.text := by
  unfold send_message at h
  split at h
  · simp at h
  next preds heq =>
    split at h
    · simp at h
    next r0 hp =>
      simp only [Prod.mk.injEq, Except.ok.injEq] at h
      obtain ⟨h1, h2⟩ := h
      subst h1
      subst h2
      exact ⟨rfl, by simp, parse_chat_primary preds 0 _ hp⟩

/-- C1 witness: the atomic-commit theorem at a concrete successful call. -/
theorem send_message_atomic_commit_witness :
    sessAfterA.message_history = emptySession.message_history ++
      [{ content := "2+2?", author := USER_AUTHOR },
       { content := respA.text, author := MODEL_AUTHOR }]
    ∧ sessAfterA.message_history.length
      = emptySession.message_history.length + 2
    ∧ ∃ c, respA.candidates.head? = some c ∧ respA.text = c.text :=
  send_message_atomic_commit "proj" "2+2?" emptySession sessAfterA none none
    none none none none none (fun _ => .ok [chunkA]) respA rfl

/-- C2: when the remote predict call raises a transport error,
`send_message` propagates it and the session — in particular its
`message_history` — is exactly as before the call. -/
theorem send_message_idempotent_failure (gp msg : String)
    (sess : ChatSession) (mot : Option Int) (temp : Option PyNum)
    (tk : Option Int) (tp : Option PyNum) (ss : Option (List String))
    (cc : Option Int) (gs : Option GroundingSource)
    (endpoint : ChatPredictionRequest →
      Except TransportError (List RawChatPrediction)) (e : TransportError)
    (sess2 : ChatSession)
    (h : send_message gp sess msg mot temp tk tp ss cc gs endpoint
      = (.error (.transport e), sess2)) :
    sess2.message_history = sess.message_history ∧ sess2 = sess := by
  unfold send_message at h
  split at h
  · simp only [Prod.mk.injEq, Except.error.injEq,
      SendError.transport.injEq] at h
    obtain ⟨-, h2⟩ := h
    subst h2
    exact ⟨rfl, rfl⟩
  · split at h
    · simp at h
    · simp at h

/-- C2 witness: the idempotent-failure theorem at a concrete failing call. -/
theorem send_message_idempotent_failure_witness :
    emptySession.message_history = emptySession.message_history
    ∧ emptySession = emptySession :=
  send_message_idempotent_failure "proj" "hi" emptySession none none none
    none none none none (fun _ => .error { message := "boom" })
    { message := "boom" } emptySession rfl

/-- C8 counterexample: `__init__` accepts a caller-supplied history of odd
length without validation, so after a successful committed exchange the turn
sequence has odd length 3, contradicting the claimed always-even invariant. -/
theorem even_history_counterexample :
    (send_message "proj" oddSession "2+2?" none none none none none none none
      (fun _ => .ok [chunkA])).2.message_history.length % 2 = 1
    ∧ (send_message "proj" oddSession "2+2?" none none none none none none
      none (fun _ => .ok [chunkA])).1 = .ok respA :=
  ⟨by decide, rfl⟩

/-- C8 (amended): each successful `send_message` commit appends exactly one
user turn immediately followed by one model turn, never touching earlier
turns (the old history is a prefix of the new one); consequently the history
length keeps its parity, so it is even after any committed exchange whenever
the session started with an even-length (e.g. empty) history. -/
theorem even_history_invariant (gp msg : String) (sess sess' : ChatSession)
    (mot : Option Int) (temp : Option PyNum) (tk : Option Int)
    (tp : Option PyNum) (ss : Option (List String)) (cc : Option Int)
    (gs : Option GroundingSource)
    (endpoint : ChatPredictionRequest →
      Except TransportError (List RawChatPrediction))
    (resp : MultiCandidateTextGenerationResponse)
    (h : send_message gp sess msg mot temp tk tp ss cc gs endpoint
      = (.ok resp, sess')) :
    sess'.message_history = sess.message_history ++
      [{ content := msg, author := USER_AUTHOR },
       { content := resp.text, author := MODEL_AUTHOR }]
    ∧ (sess.message_history.length % 2 = 0 →
      sess'.message_history.length % 2 = 0) := by
  unfold send_message at h
  split at h
  · simp at h
  next preds heq =>
    split at h
    · simp at h
    next r0 hp =>
      simp only [Prod.mk.injEq, Except.ok.injEq] at h
      obtain ⟨h1, h2⟩ := h
      subst h1
      subst h2
      refine ⟨rfl, fun hev => ?_⟩
      simp only [List.length_append, List.length_cons, List.length_nil]
      omega

/-- C8 witness: the amended invariant at a concrete committed exchange on an
initially empty (even-length) history. -/
theorem even_history_invariant_witness :
    sessAfterA.message_history = emptySession.message_history ++
      [{ content := "2+2?", author := USER_AUTHOR },
       { content := respA.text, author := MODEL_AUTHOR }]
    ∧ (emptySession.message_history.length % 2 = 0 →
      sessAfterA.message_history.length % 2 = 0) :=
  even_history_invariant "proj" "2+2?" emptySession sessAfterA none none none
    none none none none (fun _ => .ok [chunkA]) respA rfl

theorem consumeN_succ (msg : String) (n : Nat) (st : StreamState) :
    consumeN msg (n + 1) st
      = match streamNext msg st with
        | .error e => .error e
        | .ok (_, st') => consumeN msg n st' := rfl

theorem streamNext_cons (msg : String) (c : RawChatPrediction)
    (rest : List RawChatPrediction) (full : String) (com : Bool)
    (ss : ChatSession) :
    streamNext msg
      { remaining := c :: rest, full_response_text := full,
        committed := com, sess := ss }
      = match parse_chat_prediction_response [c] 0 with
        | none => .error ()
        | some resp =>
          .ok (some resp,
            { remaining := rest, full_response_text := full ++ resp.text,
              committed := com, sess := ss }) := rfl

theorem streamNext_nil_uncommitted (msg : String) (full : String)
    (ss : ChatSession) :
    streamNext msg
      { remaining := [], full_response_text := full,
        committed := false, sess := ss }
      = .ok (none,
          { remaining := [], full_response_text := full, committed := true,
            sess :=
              { ss with
                message_history := ss.message_history ++
                  [{ content := msg, author := USER_AUTHOR },
                   { content := full, author := MODEL_AUTHOR }] } }) := rfl

theorem consumeN_preserves (msg : String) :
    ∀ (k : Nat) (st st' : StreamState), k ≤ st.remaining.length →
    consumeN msg k st = .ok st' →
    st'.sess = st.sess ∧ st'.committed = st.committed := by
  intro k
  induction k with
  | zero =>
    intro st st' _ h
    simp only [consumeN, Except.ok.injEq] at h
    subst h
    exact ⟨rfl, rfl⟩
  | succ n ih =>
    intro st st' hk h
    obtain ⟨rem, full, com, ss⟩ := st
    cases rem with
    | nil => simp at hk
    | cons c rest =>
      rw [consumeN_succ, streamNext_cons] at h
      cases hparse : parse_chat_prediction_response [c] 0 with
      | none => rw [hparse] at h; simp at h
      | some resp =>
        rw [hparse] at h
        simp only at h
        have hk' : n ≤ rest.length := by
          simp only [List.length_cons] at hk
          omega
        exact ih
          { remaining := rest, full_response_text := full ++ resp.text,
            committed := com, sess := ss } st' hk' h

/-- C3: if the stream produced for a `send_message_streaming` call yields at
least 2 chunks and the caller consumes only the first yielded element (one
`next()` call) and then discards the iterator, the session's
`message_history` is unchanged: the commit code after the loop never runs. -/
theorem streaming_non_commit (gp msg : String) (sess : ChatSession)
    (mot : Option Int) (temp : Option PyNum) (tk : Option Int)
    (tp : Option PyNum) (ss : Option (List String))
    (endpointStream : ChatPredictionRequest → List RawChatPrediction)
    (st' : StreamState)
    (h2 : 2 ≤ (endpointStream (prepare_request gp sess msg mot temp tk tp ss
      none none)).length)
    (h : consumeN msg 1
      (send_message_streaming gp sess msg mot temp tk tp ss endpointStream)
      = .ok st') :
    st'.sess.message_history = sess.message_history ∧ st'.sess = sess := by
  have hpres := consumeN_preserves msg 1
    (send_message_streaming gp sess msg mot temp tk tp ss endpointStream) st'
    (by
      simp only [send_message_streaming]
      omega) h
  have hsess : st'.sess = sess := hpres.1
  exact ⟨by rw [hsess], hsess⟩

/-- C3 witness: consuming one chunk of a concrete two-chunk stream leaves the
history untouched. -/
theorem streaming_non_commit_witness :
    ({ remaining := [chunkB], full_response_text := "4", committed := false,
       sess := emptySession } : StreamState).sess.message_history
      = emptySession.message_history
    ∧ ({ remaining := [chunkB], full_response_text := "4",
         committed := false,
         sess := emptySession } : StreamState).sess = emptySession :=
  streaming_non_commit "proj" "hi" emptySession none none none none none
    (fun _ => [chunkA, chunkB]) _ (by decide) rfl

theorem consumeN_drain (msg : String) :
    ∀ (chunks : List RawChatPrediction) (st st' : StreamState),
    st.remaining = chunks → st.committed = false →
    consumeN msg (chunks.length + 1) st = .ok st' →
    st'.sess.message_history = st.sess.message_history ++
      [{ content := msg, author := USER_AUTHOR },
       { content := chunks.foldl (fun acc c => acc ++ chunkText c)
          st.full_response_text, author := MODEL_AUTHOR }] := by
  intro chunks
  induction chunks with
  | nil =>
    intro st st' hrem hcom h
    obtain ⟨rem, full, com, ss⟩ := st
    simp only at hrem hcom
    subst hrem
    subst hcom
    rw [consumeN_succ, streamNext_nil_uncommitted] at h
    simp only [consumeN, Except.ok.injEq] at h
    subst h
    simp [List.foldl]
  | cons c rest ih =>
    intro st st' hrem hcom h
    obtain ⟨rem, full, com, ss⟩ := st
    simp only at hrem hcom
    subst hrem
    subst hcom
    rw [consumeN_succ, streamNext_cons] at h
    cases hparse : parse_chat_prediction_response [c] 0 with
    | none => rw [hparse] at h; simp at h
    | some resp =>
      rw [hparse] at h
      simp only [List.length_cons] at h
      have hrec := ih
        { remaining := rest, full_response_text := full ++ resp.text,
          committed := false, sess := ss } st' rfl rfl h
      simp only at hrec
      have hct : chunkText c = resp.text := by
        simp [chunkText, hparse]
      simp only [List.foldl_cons, hct]
      exact hrec

/-- C10: when the caller fully drains the stream (all yields plus the final
`next()` that runs the post-loop commit), the committed model turn's content
is the concatenation, in yield order, of the `text` fields of all partial
responses yielded during the stream, starting from the empty string (so the
empty string when the stream yields nothing) — not the text of any single
parsed response. -/
theorem streaming_full_drain (gp msg : String) (sess : ChatSession)
    (mot : Option Int) (temp : Option PyNum) (tk : Option Int)
    (tp : Option PyNum) (ss : Option (List String))
    (endpointStream : ChatPredictionRequest → List RawChatPrediction)
    (st' : StreamState)
    (h : consumeN msg
      ((endpointStream (prepare_request gp sess msg mot temp tk tp ss none
        none)).length + 1)
      (send_message_streaming gp sess msg mot temp tk tp ss endpointStream)
      = .ok st') :
    st'.sess.message_history = sess.message_history ++
      [{ content := msg, author := USER_AUTHOR },
       { content := (endpointStream (prepare_request gp sess msg mot temp tk
          tp ss none none)).foldl (fun acc c => acc ++ chunkText c) "",
         author := MODEL_AUTHOR }] :=
  consumeN_drain msg
    (endpointStream (prepare_request gp sess msg mot temp tk tp ss none none))
    (send_message_streaming gp sess msg mot temp tk tp ss endpointStream) st'
    rfl rfl h

/-- C10 witness: draining a concrete two-chunk stream (texts `"4"` then
`"!"`) commits a model turn whose content is the concatenation of both. -/
theorem streaming_full_drain_witness :
    ({ remaining := [], full_response_text := "4!", committed := true,
       sess :=
         { context := none, examples := none, max_output_tokens := none,
           temperature := none, top_k := none, top_p := none,
           stop_sequences := none,
           message_history :=
             [{ content := "hi", author := USER_AUTHOR },
              { content := "4!", author := MODEL_AUTHOR }] } } :
      StreamState).sess.message_history
      = emptySession.message_history ++
        [{ content := "hi", author := USER_AUTHOR },
         { content := ((fun (_ : ChatPredictionRequest) => [chunkA, chunkB])
            (prepare_request "proj" emptySession "hi" none none none none
              none none none)).foldl (fun acc c => acc ++ chunkText c) "",
           author := MODEL_AUTHOR }] :=
  streaming_full_drain "proj" "hi" emptySession none none none none none
    (fun _ => [chunkA, chunkB]) _ rfl

theorem groundingMetadataOfDict_empty :
    groundingMetadataOfDict emptyRawGrounding = emptyGroundingMetadata := rfl

theorem groundingDictFor_oob (gl : List (Option RawGroundingDict)) (i : Nat)
    (h1 : gl ≠ []) (h2 : gl.length ≤ i) :
    groundingDictFor (some gl) i = none := by
  simp only [groundingDictFor]
  rw [if_neg (by simp [h1]), List.getElem?_eq_none h2]

theorem groundingDictFor_null (gl : List (Option RawGroundingDict)) (i : Nat)
    (h1 : gl ≠ []) (h2 : gl[i]? = some none) :
    groundingDictFor (some gl) i = some emptyRawGrounding := by
  simp only [groundingDictFor]
  rw [if_neg (by simp [h1]), h2]

theorem parseChatCandidate_grounding (pred : RawChatPrediction) (i : Nat)
    (c : TextGenerationResponse) (h : parseChatCandidate pred i = some c) :
    ∃ gd, groundingDictFor pred.groundingMetadata i = some gd
      ∧ c.grounding_metadata = groundingMetadataOfDict gd := by
  unfold parseChatCandidate at h
  cases h1 : pred.candidates[i]? with
  | none => rw [h1] at h; simp at h
  | some cand =>
    rw [h1] at h
    cases h2 : pred.safetyAttributes[i]? with
    | none => rw [h2] at h; simp at h
    | some sa =>
      rw [h2] at h
      simp only at h
      cases h3 : cand.content with
      | none => rw [h3] at h; simp at h
      | some text =>
        rw [h3] at h
        cases h4 : groundingDictFor pred.groundingMetadata i with
        | none => rw [h4] at h; simp at h
        | some gd =>
          rw [h4] at h
          simp only [Option.some.injEq] at h
          subst h
          exact ⟨gd, rfl, rfl⟩

theorem parseChatCandidate_none_of_grounding_none (pred : RawChatPrediction)
    (i : Nat) (h : groundingDictFor pred.groundingMetadata i = none) :
    parseChatCandidate pred i = none := by
  unfold parseChatCandidate
  cases h1 : pred.candidates[i]? with
  | none => rfl
  | some cand =>
    cases h2 : pred.safetyAttributes[i]? with
    | none => rfl
    | some sa =>
      simp only [h]
      cases h3 : cand.content <;> rfl

theorem parseChatCandidatesFrom_none (pred : RawChatPrediction) :
    ∀ (l : List Nat) (i : Nat), i ∈ l → parseChatCandidate pred i = none →
    parseChatCandidatesFrom pred l = none := by
  intro l
  induction l with
  | nil => intro i hi; simp at hi
  | cons j rest ih =>
    intro i hi hnone
    rcases List.mem_cons.mp hi with h | h
    · subst h
      simp [parseChatCandidatesFrom, hnone]
    · unfold parseChatCandidatesFrom
      cases hj : parseChatCandidate pred j with
      | none => rfl
      | some c => rw [ih i h hnone]; rfl

theorem parseChatCandidatesFrom_length (pred : RawChatPrediction) :
    ∀ (l : List Nat) (cs : List TextGenerationResponse),
    parseChatCandidatesFrom pred l = some cs → cs.length = l.length := by
  intro l
  induction l with
  | nil =>
    intro cs h
    simp only [parseChatCandidatesFrom, Option.some.injEq] at h
    subst h
    rfl
  | cons j rest ih =>
    intro cs h
    unfold parseChatCandidatesFrom at h
    cases hj : parseChatCandidate pred j with
    | none => rw [hj] at h; simp at h
    | some c =>
      rw [hj] at h
      obtain ⟨cs0, hcs0, hcons⟩ := Option.map_eq_some'.mp h
      subst hcons
      simp [ih cs0 hcs0]

theorem parseChatCandidatesFrom_some (pred : RawChatPrediction) :
    ∀ (l : List Nat) (cs : List TextGenerationResponse),
    parseChatCandidatesFrom pred l = some cs →
    ∀ (k i : Nat), l[k]? = some i → cs[k]? = parseChatCandidate pred i := by
  intro l
  induction l with
  | nil => intro cs h k i hk; simp at hk
  | cons j rest ih =>
    intro cs h k i hk
    unfold parseChatCandidatesFrom at h
    cases hj : parseChatCandidate pred j with
    | none => rw [hj] at h; simp at h
    | some c =>
      rw [hj] at h
      obtain ⟨cs0, hcs0, hcons⟩ := Option.map_eq_some'.mp h
      subst hcons
      cases k with
      | zero =>
        simp only [List.getElem?_cons_zero, Option.some.injEq] at hk
        subst hk
        simp [hj]
      | succ k0 =>
        simp only [List.getElem?_cons_succ] at hk
        simpa using ih cs0 hcs0 k0 i hk

theorem mkMultiResponse_candidates (cands : List TextGenerationResponse)
    (r : MultiCandidateTextGenerationResponse)
    (h : mkMultiResponse cands = some r) : r.candidates = cands := by
  cases cands with
  | nil => simp [mkMultiResponse] at h
  | cons c0 rest =>
    simp only [mkMultiResponse, Option.some.injEq] at h
    subst h
    rfl

/-- C7 counterexample: two candidates and a non-empty grounding list of
length 1 (shorter than the candidate list): parsing fails with an index
error (`none`) instead of assigning the second candidate an empty
`GroundingMetadata`, contradicting the claim's "never raises an
index-out-of-range error" for shorter grounding lists. -/
theorem grounding_fallback_counterexample :
    parse_chat_prediction_response
      [{ candidates := [{ content := some "a" }, { content := some "b" }]
       , safetyAttributes := [emptyRawSafety, emptyRawSafety]
       , groundingMetadata := some [some emptyRawGrounding] }] 0 = none := by
  decide

/-- C7 (amended): when the per-prediction grounding list is absent or empty,
every parsed candidate receives an empty `GroundingMetadata`; when the list
is non-empty, a null entry aligned with a candidate (in range) also falls
back to an empty `GroundingMetadata`; but when the list is non-empty and
shorter than the candidate list, the parser raises an IndexError (`none`)
rather than falling back. -/
theorem grounding_fallback (preds : List RawChatPrediction) (idx : Nat)
    (pred : RawChatPrediction) (hpred : preds[idx]? = some pred)
    (r : MultiCandidateTextGenerationResponse) :
    ((pred.groundingMetadata = none ∨ pred.groundingMetadata = some []) →
      parse_chat_prediction_response preds idx = some r →
      ∀ c, c ∈ r.candidates → c.grounding_metadata = emptyGroundingMetadata)
    ∧ (∀ (gl : List (Option RawGroundingDict)) (i : Nat)
      (c : TextGenerationResponse),
      pred.groundingMetadata = some gl → gl ≠ [] →
      gl[i]? = some none →
      parse_chat_prediction_response preds idx = some r →
      r.candidates[i]? = some c →
      c.grounding_metadata = emptyGroundingMetadata)
    ∧ (∀ gl, pred.groundingMetadata = some gl → gl ≠ [] →
      gl.length < pred.candidates.length →
      parse_chat_prediction_response preds idx = none) := by
  refine ⟨?_, ?_, ?_⟩
  · intro hga h c hc
    simp only [parse_chat_prediction_response, hpred] at h
    obtain ⟨cands, hcands, hmk⟩ := Option.bind_eq_some.mp h
    rw [mkMultiResponse_candidates cands r hmk] at hc
    obtain ⟨k, hk⟩ := List.mem_iff_getElem?.mp hc
    obtain ⟨hklen, -⟩ := List.getElem?_eq_some.mp hk
    have hlen := parseChatCandidatesFrom_length pred _ cands hcands
    have hrange : (List.range pred.candidates.length)[k]? = some k :=
      List.getElem?_range (by rw [hlen, List.length_range] at hklen; exact hklen)
    have hcand := parseChatCandidatesFrom_some pred _ cands hcands k k hrange
    rw [hk] at hcand
    obtain ⟨gd, hgd, hgm⟩ := parseChatCandidate_grounding pred k c hcand.symm
    rcases hga with hga | hga
    · rw [hga] at hgd
      simp only [groundingDictFor, Option.some.injEq] at hgd
      rw [hgm, ← hgd, groundingMetadataOfDict_empty]
    · rw [hga] at hgd
      simp only [groundingDictFor, List.isEmpty_nil, if_true,
        Option.some.injEq] at hgd
      rw [hgm, ← hgd, groundingMetadataOfDict_empty]
  · intro gl i c hgl hne hnull h hc
    simp only [parse_chat_prediction_response, hpred] at h
    obtain ⟨cands, hcands, hmk⟩ := Option.bind_eq_some.mp h
    rw [mkMultiResponse_candidates cands r hmk] at hc
    obtain ⟨hklen, -⟩ := List.getElem?_eq_some.mp hc
    have hlen := parseChatCandidatesFrom_length pred _ cands hcands
    have hrange : (List.range pred.candidates.length)[i]? = some i :=
      List.getElem?_range (by rw [hlen, List.length_range] at hklen; exact hklen)
    have hcand := parseChatCandidatesFrom_some pred _ cands hcands i i hrange
    rw [hc] at hcand
    obtain ⟨gd, hgd, hgm⟩ := parseChatCandidate_grounding pred i c hcand.symm
    rw [hgl, groundingDictFor_null gl i hne hnull] at hgd
    simp only [Option.some.injEq] at hgd
    rw [hgm, ← hgd, groundingMetadataOfDict_empty]
  · intro gl hgl hne hlen
    simp only [parse_chat_prediction_response, hpred]
    have hnone : parseChatCandidate pred gl.length = none := by
      apply parseChatCandidate_none_of_grounding_none
      rw [hgl]
      exact groundingDictFor_oob gl gl.length hne le_rfl
    rw [parseChatCandidatesFrom_none pred
      (List.range pred.candidates.length) gl.length
      (List.mem_range.mpr hlen) hnone]
    rfl

/-- C7 witness: the amended fallback theorem at a concrete prediction whose
grounding list is absent — the parsed candidate carries an empty
`GroundingMetadata`. -/
theorem grounding_fallback_witness :
    ({ text := "4", is_blocked := false, errors := [],
       safety_attributes := [],
       grounding_metadata := emptyGroundingMetadata } :
      TextGenerationResponse).grounding_metadata = emptyGroundingMetadata :=
  (grounding_fallback [chunkA] 0 chunkA rfl respA).1 (Or.inl rfl) (by decide)
    { text := "4", is_blocked := false, errors := [],
      safety_attributes := [],
      grounding_metadata := emptyGroundingMetadata } (by decide)

/-- C9 counterexample: `accelerator_type=""` is outside the supported set
`{TPU, GPU}`, yet — because the guard is Python truthiness and the empty
string is falsy — no validation error is raised: `tune_model` silently drops
the parameter and proceeds to `_tune_model` (the network call and job
launch), contradicting the claim that any accelerator_type outside the
supported set raises synchronously. -/
theorem tune_model_validation_counterexample :
    "" ∉ ACCELERATOR_TYPES
    ∧ tune_model none none none (some "europe-west4") none none (some "")
        none = .ok [] := by
  exact ⟨by decide, rfl⟩

/-- C9 (amended): for truthy malformed inputs, validation is synchronous and
happens before `_tune_model` — the only site of network calls and of the
tuning-job launch — is reached: a non-empty `accelerator_type` outside the
supported set raises ValueError; a non-empty `evaluation_data` string that is
not a `gs://` URI raises ValueError; a non-string `evaluation_data` raises
TypeError. An empty-string value is falsy and is silently skipped instead
(no error, no parameter). -/
theorem tune_model_validation (ts : Option Int) (lr lrm : Option Rat)
    (tjl dc mcl : Option String) (spec : TuningEvaluationSpec)
    (a s : String) :
    (a ≠ "" → a ∉ ACCELERATOR_TYPES →
      tune_model ts lr lrm tjl none dc (some a) mcl
        = .error (.valueError "Unsupported accelerator type"))
    ∧ (s ≠ "" → ¬ s.startsWith "gs://" →
      spec.evaluation_data = some (.str s) →
      tune_model ts lr lrm tjl (some spec) dc none mcl
        = .error (.valueError "evaluation_data should be a GCS URI"))
    ∧ (spec.evaluation_data = some .nonString →
      tune_model ts lr lrm tjl (some spec) dc none mcl
        = .error (.typeError "evaluation_data should be a URI string")) := by
  refine ⟨?_, ?_, ?_⟩
  · intro ha hmem
    simp only [tune_model, pure_bind]
    rw [if_neg ha, if_neg hmem]
    rfl
  · intro hs hgs hdata
    simp only [tune_model, pure_bind, hdata]
    rw [if_neg hs, if_neg hgs]
    rfl
  · intro hdata
    simp only [tune_model, pure_bind, hdata]
    rfl

/-- C9 witness: the amended validation theorem at the concrete unsupported
accelerator type `"CPU"`. -/
theorem tune_model_validation_witness :
    tune_model none none none (some "europe-west4") none none (some "CPU")
      none = .error (.valueError "Unsupported accelerator type") :=
  (tune_model_validation none none none (some "europe-west4") none none
    { evaluation_data := none, evaluation_interval := none,
      enable_early_stopping := none, enable_checkpoint_selection := none,
      tensorboard := none } "CPU" "x").1 (by decide) (by decide)
